import Mathlib

/-!
Verification of the Verum Omnis evidence-sealing pipeline.

This file is a shallow embedding, in Lean 4, of the cryptographic seal
enforcement module of the repository (the three gates: InputSealInterceptor,
InternalSealMiddleware, OutputSealEnforcer, and the SealAuditLog), together
with theorems settling the specification claims about it.

Modelling conventions:
- The platform crypto primitives (crypto.subtle.digest for SHA-512 and
  SHA-256), the platform text/JSON encoders (TextEncoder.encode applied to
  JSON.stringify output) and Date formatting are externals of the program,
  not repository code; they are modelled by a `WebCrypto` structure of
  abstract functions carrying the one fact the program relies on: SHA-512
  digests are 64 bytes and SHA-256 digests are 32 bytes.
- Stateful code (the global audit log, Date.now) becomes explicit state
  passing: each gate function takes the current log and the current time
  string and returns the appended log.
- Fallible code (throw) returns Except.
- JavaScript dynamic values, needed where the source types a parameter as
  `any`, are embedded as the inductive `JSValue` with JS truthiness and
  typeof semantics.
-/

namespace VerumOmnis

/-- GPS coordinates as captured from GeolocationPosition (part_002 lines
19-23). Coordinates are carried opaquely (no arithmetic is performed on
them), so they are embedded as integers. -/
structure Gps where
  latitude : Int
  longitude : Int
  accuracy : Int
deriving DecidableEq, Repr

/-- File metadata extracted by InputSealInterceptor.extractMetadata
(part_002 lines 232-239). -/
structure FileMetadata where
  name : String
  mimeType : String
  size : Nat
  lastModified : String
deriving DecidableEq, Repr

/-- The operation tag of an audit entry (part_002 line 39). -/
inductive SealOperation where
  | SEAL_CREATE
  | SEAL_VERIFY
  | SEAL_REJECT
deriving DecidableEq, Repr

/-- The result tag of an audit entry (part_002 line 43). -/
inductive OpResult where
  | SUCCESS
  | FAILURE
deriving DecidableEq, Repr

/-- AuditLogEntry (part_002 lines 38-45): exactly the six fields of the
source interface; `itemId`, `sha512` and `reason` are optional there and
become Option here. Note the interface has no previous-entry-hash field. -/
structure AuditLogEntry where
  operation : SealOperation
  timestamp : String
  itemId : Option String
  sha512 : Option String
  result : OpResult
  reason : Option String
deriving DecidableEq, Repr

/-- Consensus finding: one analyzer's conclusion about a claim.
Modelled from the spec: the repository documents the Triple-AI consensus
flow (RELEASE.md: all 3 agree, accept; 2 agree, flag; 1 or 0 agree,
reject) but ships no reconcile implementation in source code, so the
Finding record follows spec section 3. `verdict_value` is categorical and
compared by exact match; `confidence` is carried opaquely (scaled to an
integer percentage, since no arithmetic is performed on it). -/
structure Finding where
  analyzer_id : String
  claim_id : String
  verdict_value : String
  confidence : Nat
deriving DecidableEq, Repr

/-- Verdict status (spec section 3). -/
inductive VerdictStatus where
  | ACCEPTED
  | FLAGGED
  | REJECTED
deriving DecidableEq, Repr

/-- Consensus verdict for one claim. Modelled from the spec (section 3):
no Verdict record exists in source code. -/
structure Verdict where
  claim_id : String
  status : VerdictStatus
  supporting_findings : List String
  agreement_count : Nat
  total_count : Nat
deriving DecidableEq, Repr

/-- Payload handed to OutputSealEnforcer.sealForOutput. The source types it
as `any`; the spec distinguishes raw evidence bytes from Verdict and
Finding summaries, so the embedding makes those categories explicit. -/
inductive OutPayload where
  | rawEvidence (bytes : List Nat)
  | verdictSummary (v : Verdict)
  | findingSummary (f : Finding)
  | report (text : String)
deriving DecidableEq, Repr

/-- SealedData (part_002 lines 16-30): the sealed envelope interface.
Optional fields of the source interface become Option. -/
structure SealedData where
  sha512 : String
  timestamp : String
  gps : Option Gps
  sealed : Bool
  chainOfCustody : String
  metadata : Option FileMetadata
  authenticityScore : Option Nat
  tamperFlags : Option (List String)
  content : Option OutPayload
deriving DecidableEq, Repr

/-- The two error classes of part_002 lines 51-63. The constructor argument
is the message passed to the constructor; `fullMessage` reproduces the
prefixing done in `super(...)`. -/
inductive SealError where
  | SealViolationError (message : String)
  | SealIntegrityError (message : String)
deriving DecidableEq, Repr

/-- The `Error.message` value after the constructor prefixes it
(part_002 lines 53 and 60). -/
def SealError.fullMessage : SealError → String
  | .SealViolationError m => "SEAL VIOLATION: " ++ m
  | .SealIntegrityError m => "SEAL INTEGRITY FAILURE: " ++ m

/-- SealValidationResult (part_002 lines 32-36). `auditEntry` is optional
in the interface and is never populated by validateSeal. -/
structure SealValidationResult where
  valid : Bool
  reason : Option String
  auditEntry : Option AuditLogEntry
deriving DecidableEq, Repr

/-- A JavaScript dynamic value, for source positions typed `any`
(InputSealInterceptor.validateSeal takes `data: any`). Arrays and
functions do not occur at those positions and are omitted. -/
inductive JSValue where
  | nullV
  | undefinedV
  | boolV (b : Bool)
  | numV (n : Int)
  | strV (s : String)
  | obj (fields : List (String × JSValue))

namespace JSValue

/-- JavaScript truthiness: `!v` is true exactly on these values (NaN does
not arise in the integer embedding). -/
def falsy : JSValue → Bool
  | .nullV => true
  | .undefinedV => true
  | .boolV b => !b
  | .numV n => n = 0
  | .strV s => s = ""
  | .obj _ => false

/-- JavaScript `typeof v === 'object'` (true for null and for objects). -/
def typeofObject : JSValue → Bool
  | .nullV => true
  | .obj _ => true
  | _ => false

/-- Strict equality with the boolean literal true: `v === true`. -/
def strictlyTrue : JSValue → Bool
  | .boolV true => true
  | _ => false

/-- Property access `v.k`: the first binding of the key in an object,
undefined otherwise. -/
def getProp (v : JSValue) (k : String) : JSValue :=
  match v with
  | .obj fields =>
    match fields.find? (fun p => p.1 = k) with
    | some p => p.2
    | none => .undefinedV
  | _ => .undefinedV

/-- Whether an object value carries the property at all (`k in v`),
regardless of the property's own truthiness. -/
def hasProp (v : JSValue) (k : String) : Bool :=
  match v with
  | .obj fields => fields.any (fun p => p.1 = k)
  | _ => false

end JSValue

/-- The platform primitives the seal module calls: crypto.subtle.digest
for SHA-512 (64-byte digests) and SHA-256 (32-byte digests), the byte
encodings of the JSON-stringified custody objects, and Date#toISOString
formatting. These are externals of the program; only the digest lengths
are fixed facts the code relies on. -/
structure WebCrypto where
  sha512 : List Nat → List Nat
  sha256 : List Nat → List Nat
  encodeCustody : String → String → Option Gps → List Nat
  encodeContent : OutPayload → List Nat
  encodeOutCustody : String → String → String → List Nat
  isoString : Nat → String
  sha512_length : ∀ b, (sha512 b).length = 64
  sha256_length : ∀ b, (sha256 b).length = 32

/-- One byte rendered as in `b.toString(16).padStart(2, '0')`
(part_002 line 229): lowercase hex, left-padded to two characters. -/
def byteToHex (b : Nat) : List Char :=
  if (Nat.toDigits 16 b).length = 0 then ['0', '0']
  else if (Nat.toDigits 16 b).length = 1 then '0' :: Nat.toDigits 16 b
  else Nat.toDigits 16 b

/-- `hashArray.map(..toString(16).padStart(2,'0')).join('')`: the hex
rendering of a digest. -/
def bytesToHexChars (bs : List Nat) : List Char :=
  (bs.map byteToHex).flatten

/-- The hex digest as a string. -/
def bytesToHex (bs : List Nat) : String :=
  ⟨bytesToHexChars bs⟩

/-- `hex.toUpperCase().substring(0, 16)` applied to a digest's hex string:
the chain-of-custody rendering (part_002 line 263 and line 391). -/
def custodyHexString (bs : List Nat) : String :=
  ⟨((bytesToHexChars bs).map Char.toUpper).take 16⟩

namespace SealAuditLog

/-- SealAuditLog.log (part_002 lines 72-80): appends a copy of the entry,
substituting the current ISO time when the entry's `timestamp` is falsy
(the empty string, in the typed interface). The private `logs` array is
the explicit state; `now` is the `new Date().toISOString()` value. -/
def log (logs : List AuditLogEntry) (entry : AuditLogEntry) (now : String) :
    List AuditLogEntry :=
  logs ++ [{ entry with timestamp := if entry.timestamp = "" then now else entry.timestamp }]

/-- SealAuditLog.getLogs (part_002 lines 82-84): returns a copy of the
entries, in insertion order. -/
def getLogs (logs : List AuditLogEntry) : List AuditLogEntry :=
  logs

end SealAuditLog

namespace InputSealInterceptor

/-- InputSealInterceptor.generateSHA512 (part_002 lines 225-230), applied
to already-read file bytes. -/
def generateSHA512 (C : WebCrypto) (buffer : List Nat) : String :=
  bytesToHex (C.sha512 buffer)

/-- InputSealInterceptor.generateChainOfCustody (part_002 lines 253-264):
SHA-256 over the encoded custody object, uppercased hex, first 16
characters. -/
def generateChainOfCustody (C : WebCrypto) (sha512 timestamp : String)
    (gps : Option Gps) : String :=
  custodyHexString (C.sha256 (C.encodeCustody sha512 timestamp gps))

/-- InputSealInterceptor.extractMetadata (part_002 lines 232-239). -/
def extractMetadata (C : WebCrypto) (name mimeType : String) (size lastModified : Nat) :
    FileMetadata :=
  { name := name, mimeType := mimeType, size := size,
    lastModified := C.isoString lastModified }

/-- An uploaded File as the seal interceptor consumes it: identification
fields plus the result of `file.arrayBuffer()`, which either yields the
byte content or rejects with an error message (the unreadable-stream
case). -/
structure File where
  name : String
  mimeType : String
  size : Nat
  lastModified : Nat
  bytes : Except String (List Nat)
deriving Repr

/-- InputSealInterceptor.sealFile (part_002 lines 114-175). On readable
bytes it hashes, stamps, captures optional GPS, extracts metadata, scores
authenticity (constant 95), runs tamper detection (constant empty list),
derives the chain of custody, logs one SEAL_CREATE SUCCESS entry and
returns the sealed data. Any failure inside the try block (in this
embedding: the byte read rejecting) logs one SEAL_CREATE FAILURE entry
and throws SealViolationError. `now` is the captured timestamp. -/
def sealFile (C : WebCrypto) (file : File) (geolocation : Option Gps)
    (now : String) (logs : List AuditLogEntry) :
    Except SealError SealedData × List AuditLogEntry :=
  match file.bytes with
  | .error msg =>
    (.error (.SealViolationError ("Failed to seal file: " ++ msg)),
     SealAuditLog.log logs
       { operation := .SEAL_CREATE, timestamp := now, itemId := some file.name,
         sha512 := none, result := .FAILURE, reason := some msg } now)
  | .ok buffer =>
    let sha512 := generateSHA512 C buffer
    let timestamp := now
    let gps := geolocation
    let metadata := extractMetadata C file.name file.mimeType file.size file.lastModified
    let authenticityScore := 95
    let tamperFlags : List String := []
    let chainOfCustody := generateChainOfCustody C sha512 timestamp gps
    let sealedData : SealedData :=
      { sha512 := sha512, timestamp := timestamp, gps := gps, sealed := true,
        chainOfCustody := chainOfCustody, metadata := some metadata,
        authenticityScore := some authenticityScore,
        tamperFlags := some tamperFlags, content := none }
    (.ok sealedData,
     SealAuditLog.log logs
       { operation := .SEAL_CREATE, timestamp := timestamp, itemId := some file.name,
         sha512 := some sha512, result := .SUCCESS, reason := none } now)

/-- InputSealInterceptor.validateSeal (part_002 lines 180-204): a total
classifier over arbitrary values. `!data || typeof data !== 'object'`
rejects falsy values and non-objects; `data.sealed !== true` rejects
anything whose sealed property is not the boolean true; the last check
rejects when any of the three seal fields is falsy. -/
def validateSeal (data : JSValue) : SealValidationResult :=
  if data.falsy || !data.typeofObject then
    { valid := false, reason := some "Data is not an object", auditEntry := none }
  else if !(data.getProp "sealed").strictlyTrue then
    { valid := false, reason := some "Data is not marked as sealed", auditEntry := none }
  else if (data.getProp "sha512").falsy || (data.getProp "timestamp").falsy
      || (data.getProp "chainOfCustody").falsy then
    { valid := false,
      reason := some "Missing required seal fields (sha512, timestamp, or chainOfCustody)",
      auditEntry := none }
  else
    { valid := true, reason := none, auditEntry := none }

end InputSealInterceptor

namespace InternalSealMiddleware

/-- InternalSealMiddleware.verifySealIntegrity (part_002 lines 337-346):
checks only that the three seal fields are truthy; it performs no hash
recomputation (the source comment defers that to production). -/
def verifySealIntegrity (data : SealedData) : Bool :=
  if data.sha512 = "" || data.timestamp = "" || data.chainOfCustody = "" then
    false
  else
    true

/-- InternalSealMiddleware.validateAndPass (part_002 lines 289-332): the
Internal Gate. Rejects (SealViolationError, one SEAL_REJECT FAILURE
entry) when the sealed flag is not true; rejects (SealIntegrityError, one
SEAL_VERIFY FAILURE entry) when the field check fails; otherwise logs one
SEAL_VERIFY SUCCESS entry and returns the data unchanged. -/
def validateAndPass (data : SealedData) (fromModule toModule : String)
    (logs : List AuditLogEntry) (now : String) :
    Except SealError SealedData × List AuditLogEntry :=
  if data.sealed ≠ true then
    (.error (.SealViolationError
        ("Unsealed data rejected in transit from " ++ fromModule ++ " to " ++ toModule)),
     SealAuditLog.log logs
       { operation := .SEAL_REJECT, timestamp := now, itemId := none, sha512 := none,
         result := .FAILURE,
         reason := some ("Unsealed data rejected in transit from " ++ fromModule
           ++ " to " ++ toModule) } now)
  else if !verifySealIntegrity data then
    (.error (.SealIntegrityError
        "Seal integrity check failed - possible tampering detected"),
     SealAuditLog.log logs
       { operation := .SEAL_VERIFY, timestamp := now, itemId := none,
         sha512 := some data.sha512, result := .FAILURE,
         reason := some ("Seal integrity check failed from " ++ fromModule
           ++ " to " ++ toModule) } now)
  else
    (.ok data,
     SealAuditLog.log logs
       { operation := .SEAL_VERIFY, timestamp := now, itemId := none,
         sha512 := some data.sha512, result := .SUCCESS, reason := none } now)

end InternalSealMiddleware

namespace OutputSealEnforcer

/-- OutputSealEnforcer.sealForOutput (part_002 lines 371-422): hashes the
JSON-encoded outbound payload, derives a chain of custody over
(sha512, timestamp, destination), wraps the payload verbatim in `content`,
logs one SEAL_CREATE SUCCESS entry and returns the sealed output. The
encoders and digests are total here, so the catch branch is unreachable
in the embedding. -/
def sealForOutput (C : WebCrypto) (data : OutPayload) (destination : String)
    (now : String) (logs : List AuditLogEntry) :
    Except SealError SealedData × List AuditLogEntry :=
  let timestamp := now
  let contentData := C.encodeContent data
  let sha512 := bytesToHex (C.sha512 contentData)
  let chainOfCustody := custodyHexString (C.sha256 (C.encodeOutCustody sha512 timestamp destination))
  let sealedOutput : SealedData :=
    { sha512 := sha512, timestamp := timestamp, gps := none, sealed := true,
      chainOfCustody := chainOfCustody, metadata := none,
      authenticityScore := none, tamperFlags := none, content := some data }
  (.ok sealedOutput,
   SealAuditLog.log logs
     { operation := .SEAL_CREATE, timestamp := timestamp, itemId := none,
       sha512 := some sha512, result := .SUCCESS,
       reason := some ("Output sealed for " ++ destination) } now)

/-- OutputSealEnforcer.validateBeforeTransmission (part_002 lines
427-448): the Output Gate check. Throws SealViolationError and logs one
SEAL_REJECT FAILURE entry when the sealed flag is not true; otherwise
logs one SEAL_VERIFY SUCCESS entry and returns. It inspects no field
other than `sealed` (and `sha512` for the log line). -/
def validateBeforeTransmission (data : SealedData) (destination : String)
    (logs : List AuditLogEntry) (now : String) :
    Except SealError Unit × List AuditLogEntry :=
  if data.sealed ≠ true then
    (.error (.SealViolationError
        ("Cannot send unsealed data to " ++ destination
          ++ ". All external transmissions must be sealed.")),
     SealAuditLog.log logs
       { operation := .SEAL_REJECT, timestamp := now, itemId := none, sha512 := none,
         result := .FAILURE,
         reason := some ("Attempted to send unsealed data to " ++ destination) } now)
  else
    (.ok (),
     SealAuditLog.log logs
       { operation := .SEAL_VERIFY, timestamp := now, itemId := none,
         sha512 := some data.sha512, result := .SUCCESS,
         reason := some ("Output validated for transmission to " ++ destination) } now)

end OutputSealEnforcer

namespace ConsensusAggregator

/-- Modelled from the spec: the repository documents the Triple-AI
consensus flow (RELEASE.md lines 222-239: all 3 agree, accept; 2 agree,
flag; 1 or 0 agree, reject) but contains no reconcile implementation in
source code, so the decision rule follows spec section 4.3: ACCEPTED when
the largest agreeing group is unanimous with at least three findings;
FLAGGED when at most one finding dissents and at least two findings
exist; REJECTED otherwise. -/
def statusFor (agreement total : Nat) : VerdictStatus :=
  if agreement = total ∧ 3 ≤ total then .ACCEPTED
  else if total - 1 ≤ agreement ∧ 2 ≤ total then .FLAGGED
  else .REJECTED

/-- Modelled from the spec (section 4.3 step 1-2): the size of the
largest group of findings sharing one categorical `verdict_value`
(agreement is exact match for categorical values). -/
def agreementCount (findings : List Finding) : Nat :=
  (findings.map
    (fun f => (findings.filter (fun g => g.verdict_value = f.verdict_value)).length)).foldr
    max 0

/-- Modelled from the spec (section 4.3 step 1-2): the findings belonging
to a largest agreeing group, in input order. -/
def largestAgreeingGroup (findings : List Finding) : List Finding :=
  findings.filter
    (fun f =>
      (findings.filter (fun g => g.verdict_value = f.verdict_value)).length
        = agreementCount findings)

/-- Modelled from the spec: `reconcile(claim_id, findings) -> Verdict`
(section 4.3) has no source implementation; this definition follows the
spec's algorithm. Zero findings produce no Verdict; otherwise the status
is computed from (agreement_count, total_count) and the supporting
findings are the identifiers of a largest agreeing group. -/
def reconcile (claim_id : String) (findings : List Finding) : Option Verdict :=
  if findings.isEmpty then
    none
  else
    let total := findings.length
    let agreement := agreementCount findings
    some
      { claim_id := claim_id, status := statusFor agreement total,
        supporting_findings := (largestAgreeingGroup findings).map Finding.analyzer_id,
        agreement_count := agreement, total_count := total }

end ConsensusAggregator

/-!  Concrete fixtures used by witnesses and counterexamples.  -/

/-- A concrete instance of the platform primitives, used to evaluate the
embedding at concrete inputs: constant digests of the correct lengths. -/
def testCrypto : WebCrypto where
  sha512 := fun _ => List.replicate 64 0
  sha256 := fun _ => List.replicate 32 0
  encodeCustody := fun _ _ _ => []
  encodeContent := fun _ => []
  encodeOutCustody := fun _ _ _ => []
  isoString := fun _ => "1970-01-01T00:00:00.000Z"
  sha512_length := fun _ => List.length_replicate 64 0
  sha256_length := fun _ => List.length_replicate 32 0

/-- A small readable file. -/
def fileSmall : InputSealInterceptor.File :=
  { name := "evidence.bin", mimeType := "application/octet-stream", size := 3,
    lastModified := 0, bytes := Except.ok [0, 1, 2] }

/-- A file whose byte read rejects (unreadable stream). -/
def fileUnreadable : InputSealInterceptor.File :=
  { name := "broken.bin", mimeType := "application/octet-stream", size := 3,
    lastModified := 0, bytes := Except.error "stream unreadable" }

/-- A concrete packet whose sealed flag is false. -/
def unsealedPacket : SealedData :=
  { sha512 := "ab", timestamp := "2024-01-01T00:00:00.000Z", gps := none,
    sealed := false, chainOfCustody := "CD", metadata := none,
    authenticityScore := none, tamperFlags := none, content := none }

/-- A concrete well-formed sealed packet. -/
def sealedPacket : SealedData :=
  { sha512 := "ab", timestamp := "2024-01-01T00:00:00.000Z", gps := none,
    sealed := true, chainOfCustody := "CD", metadata := none,
    authenticityScore := none, tamperFlags := none, content := none }

/-- A raw-evidence outbound payload. -/
def rawPayload : OutPayload := .rawEvidence [0, 1, 2]

/-- Three findings on one claim, two agreeing (the spec's section 8
scenario). -/
def findingA1 : Finding := ⟨"brain1", "c1", "authentic", 90⟩

def findingA2 : Finding := ⟨"brain2", "c1", "authentic", 90⟩

def findingT3 : Finding := ⟨"brain3", "c1", "tampered", 80⟩

/-- A first audit entry. -/
def entryA : AuditLogEntry :=
  { operation := .SEAL_CREATE, timestamp := "t1", itemId := some "evidence.bin",
    sha512 := some "ab", result := .SUCCESS, reason := none }

/-- The first audit entry with its item identifier altered after the
fact. -/
def entryAAltered : AuditLogEntry :=
  { operation := .SEAL_CREATE, timestamp := "t1", itemId := some "forged.bin",
    sha512 := some "ab", result := .SUCCESS, reason := none }

/-- A second audit entry. -/
def entryB : AuditLogEntry :=
  { operation := .SEAL_VERIFY, timestamp := "t2", itemId := none,
    sha512 := some "ab", result := .SUCCESS, reason := none }

/-- A dynamic packet that is an object, has sealed === true and carries
all three seal fields, but with an empty-string sha512. -/
def packetEmptySha : JSValue :=
  .obj [("sealed", .boolV true), ("sha512", .strV ""),
        ("timestamp", .strV "2024-01-01T00:00:00.000Z"),
        ("chainOfCustody", .strV "CD")]

/-!  Helper lemmas.  -/

theorem byteToHex_ne_nil (b : Nat) : byteToHex b ≠ [] := by
  unfold byteToHex
  split_ifs with h0 h1
  · simp
  · simp
  · intro hc
    rw [hc] at h0
    simp at h0

theorem bytesToHexChars_ne_nil {bs : List Nat} (h : bs ≠ []) :
    bytesToHexChars bs ≠ [] := by
  cases bs with
  | nil => exact absurd rfl h
  | cons x xs =>
    simp only [bytesToHexChars, List.map_cons, List.flatten_cons]
    intro hc
    exact byteToHex_ne_nil x (List.append_eq_nil.mp hc).1

theorem string_mk_ne_empty {l : List Char} (h : l ≠ []) : (⟨l⟩ : String) ≠ "" := by
  intro hc
  apply h
  have h2 := congrArg String.data hc
  simpa using h2

theorem bytesToHex_ne_empty {bs : List Nat} (h : bs ≠ []) : bytesToHex bs ≠ "" := by
  exact string_mk_ne_empty (bytesToHexChars_ne_nil h)

theorem custodyHexString_ne_empty {bs : List Nat} (h : bs ≠ []) :
    custodyHexString bs ≠ "" := by
  apply string_mk_ne_empty
  cases hx : bytesToHexChars bs with
  | nil => exact absurd hx (bytesToHexChars_ne_nil h)
  | cons c cs => simp

theorem ne_nil_of_length_eq_succ {α : Type} {l : List α} {n : Nat}
    (h : l.length = n + 1) : l ≠ [] := by
  intro hc
  rw [hc] at h
  simp at h

theorem generateSHA512_ne_empty (C : WebCrypto) (buffer : List Nat) :
    InputSealInterceptor.generateSHA512 C buffer ≠ "" := by
  apply bytesToHex_ne_empty
  exact ne_nil_of_length_eq_succ (n := 63) (by rw [C.sha512_length])

theorem generateChainOfCustody_ne_empty (C : WebCrypto) (s t : String)
    (g : Option Gps) : InputSealInterceptor.generateChainOfCustody C s t g ≠ "" := by
  apply custodyHexString_ne_empty
  exact ne_nil_of_length_eq_succ (n := 31) (by rw [C.sha256_length])

theorem verifySealIntegrity_eq_true {sd : SealedData} (h1 : sd.sha512 ≠ "")
    (h2 : sd.timestamp ≠ "") (h3 : sd.chainOfCustody ≠ "") :
    InternalSealMiddleware.verifySealIntegrity sd = true := by
  simp [InternalSealMiddleware.verifySealIntegrity, h1, h2, h3]

theorem validateAndPass_ok {sd : SealedData} (hs : sd.sealed = true)
    (hv : InternalSealMiddleware.verifySealIntegrity sd = true)
    (fromModule toModule : String) (logs : List AuditLogEntry) (now : String) :
    InternalSealMiddleware.validateAndPass sd fromModule toModule logs now
      = (.ok sd,
         logs ++ [{ operation := .SEAL_VERIFY, timestamp := now, itemId := none,
                    sha512 := some sd.sha512, result := .SUCCESS, reason := none }]) := by
  simp [InternalSealMiddleware.validateAndPass, hs, hv, SealAuditLog.log, ite_self]

theorem sealFile_ok (C : WebCrypto) (f : InputSealInterceptor.File) (geo : Option Gps)
    (now : String) (logs : List AuditLogEntry) (buf : List Nat)
    (hb : f.bytes = Except.ok buf) :
    InputSealInterceptor.sealFile C f geo now logs
      = (Except.ok
          { sha512 := InputSealInterceptor.generateSHA512 C buf, timestamp := now,
            gps := geo, sealed := true,
            chainOfCustody := InputSealInterceptor.generateChainOfCustody C
              (InputSealInterceptor.generateSHA512 C buf) now geo,
            metadata := some (InputSealInterceptor.extractMetadata C f.name f.mimeType
              f.size f.lastModified),
            authenticityScore := some 95, tamperFlags := some [], content := none },
         logs ++ [{ operation := .SEAL_CREATE, timestamp := now, itemId := some f.name,
                    sha512 := some (InputSealInterceptor.generateSHA512 C buf),
                    result := .SUCCESS, reason := none }]) := by
  simp [InputSealInterceptor.sealFile, hb, SealAuditLog.log, ite_self]

theorem statusFor_accepted_iff (a t : Nat) :
    ConsensusAggregator.statusFor a t = .ACCEPTED ↔ (a = t ∧ 3 ≤ t) := by
  unfold ConsensusAggregator.statusFor
  split_ifs with h1 h2 <;> simp_all

theorem statusFor_flagged_iff (a t : Nat) :
    ConsensusAggregator.statusFor a t = .FLAGGED
      ↔ ((t - 1 ≤ a ∧ 2 ≤ t) ∧ ¬(a = t ∧ 3 ≤ t)) := by
  unfold ConsensusAggregator.statusFor
  split_ifs with h1 h2 <;> simp_all

theorem statusFor_rejected_iff (a t : Nat) :
    ConsensusAggregator.statusFor a t = .REJECTED ↔ ¬(t - 1 ≤ a ∧ 2 ≤ t) := by
  unfold ConsensusAggregator.statusFor
  split_ifs with h1 h2
  · obtain ⟨ha, h3⟩ := h1
    simp
    omega
  · simp_all
  · simp_all

/-!  Claim theorems.  -/

/-- C3: for every claim id, zero findings produce no Verdict, and for
every non-empty list of findings reconcile returns a Verdict whose status
is fully determined by (agreement_count, total_count): ACCEPTED exactly
when agreement_count = total_count and total_count is at least 3; FLAGGED
exactly when at most one finding dissents, total_count is at least 2 and
the verdict is not ACCEPTED; REJECTED otherwise; and a single finding
alone always yields REJECTED. -/
theorem C3_consensus_rule (cid : String) (findings : List Finding) :
    (findings = [] → ConsensusAggregator.reconcile cid findings = none)
  ∧ (findings ≠ [] →
      ∃ v, ConsensusAggregator.reconcile cid findings = some v
        ∧ v.total_count = findings.length
        ∧ v.agreement_count = ConsensusAggregator.agreementCount findings
        ∧ v.status = ConsensusAggregator.statusFor v.agreement_count v.total_count
        ∧ (v.status = .ACCEPTED ↔
            (v.agreement_count = v.total_count ∧ 3 ≤ v.total_count))
        ∧ (v.status = .FLAGGED ↔
            ((v.total_count - 1 ≤ v.agreement_count ∧ 2 ≤ v.total_count)
              ∧ ¬(v.agreement_count = v.total_count ∧ 3 ≤ v.total_count)))
        ∧ (v.status = .REJECTED ↔
            ¬(v.total_count - 1 ≤ v.agreement_count ∧ 2 ≤ v.total_count))
        ∧ (findings.length = 1 → v.status = .REJECTED)) := by
  constructor
  · intro h
    simp [ConsensusAggregator.reconcile, h]
  · intro h
    have hne : findings.isEmpty = false := by
      cases findings with
      | nil => exact absurd rfl h
      | cons a l => rfl
    refine ⟨{ claim_id := cid,
              status := ConsensusAggregator.statusFor
                (ConsensusAggregator.agreementCount findings) findings.length,
              supporting_findings :=
                (ConsensusAggregator.largestAgreeingGroup findings).map Finding.analyzer_id,
              agreement_count := ConsensusAggregator.agreementCount findings,
              total_count := findings.length },
            ?_, rfl, rfl, rfl, ?_, ?_, ?_, ?_⟩
    · simp [ConsensusAggregator.reconcile, hne]
    · exact statusFor_accepted_iff _ _
    · exact statusFor_flagged_iff _ _
    · exact statusFor_rejected_iff _ _
    · intro h1
      show ConsensusAggregator.statusFor _ findings.length = _
      rw [h1]
      apply (statusFor_rejected_iff _ _).mpr
      intro hc
      omega

/-- C3 witness: the empty list yields no verdict, and the spec section 8
scenario (two findings of value authentic, one of value tampered) yields
the FLAGGED verdict with agreement 2 of 3. -/
theorem C3_consensus_rule_witness :
    ConsensusAggregator.reconcile "c1" [] = none
  ∧ (ConsensusAggregator.reconcile "c1" [findingA1, findingA2, findingT3]).isSome = true
  ∧ ConsensusAggregator.reconcile "c1" [findingA1, findingA2, findingT3]
      = some { claim_id := "c1", status := .FLAGGED,
               supporting_findings := ["brain1", "brain2"],
               agreement_count := 2, total_count := 3 } := by
  refine ⟨(C3_consensus_rule "c1" []).1 rfl, ?_, by decide⟩
  obtain ⟨v, hv, -⟩ :=
    (C3_consensus_rule "c1" [findingA1, findingA2, findingT3]).2 (by decide)
  rw [hv]
  rfl

/-- C4 counterexample: audit entries carry no previous-entry hash (the
embedded AuditLogEntry mirrors the six fields of part_002 lines 38-45),
so the hash-chain property fails operationally: altering the first of two
logged entries leaves the stored content of every subsequent entry
bit-identical, and the only read operation reports the altered ledger
with nothing invalidated. -/
theorem C4_counterexample :
    entryA ≠ entryAAltered
  ∧ (SealAuditLog.log (SealAuditLog.log [] entryA "t1") entryB "t2").drop 1
      = (SealAuditLog.log (SealAuditLog.log [] entryAAltered "t1") entryB "t2").drop 1
  ∧ SealAuditLog.getLogs (SealAuditLog.log (SealAuditLog.log [] entryAAltered "t1") entryB "t2")
      = SealAuditLog.log (SealAuditLog.log [] entryAAltered "t1") entryB "t2" :=
  ⟨by decide, by decide, rfl⟩

/-- C4 amended: the audit log is a plain append-only array: log appends
exactly one entry (substituting the current time when the entry's
timestamp is empty) and getLogs returns the entries unchanged in
insertion order; the stored content of the appended entry is a function
of the entry and the clock alone, so altering a historical entry leaves
all subsequent entries unchanged rather than invalidating them. -/
theorem C4_append_only_no_chain (L : List AuditLogEntry) (e : AuditLogEntry)
    (now : String) :
    SealAuditLog.log L e now
      = L ++ [{ e with timestamp := if e.timestamp = "" then now else e.timestamp }]
  ∧ SealAuditLog.getLogs L = L
  ∧ (SealAuditLog.log L e now).drop L.length
      = [{ e with timestamp := if e.timestamp = "" then now else e.timestamp }] := by
  refine ⟨rfl, rfl, ?_⟩
  simp [SealAuditLog.log]

/-- C5: a data packet whose sealed flag is not true is rejected by the
Internal Gate: validateAndPass throws SealViolationError and appends
exactly one SEAL_REJECT FAILURE entry to the audit log; the failure is
returned to the caller (the error value) and logged, never silently
passed. -/
theorem C5_internal_gate_reject (data : SealedData) (fromModule toModule : String)
    (logs : List AuditLogEntry) (now : String) (h : data.sealed = false) :
    InternalSealMiddleware.validateAndPass data fromModule toModule logs now
      = (.error (.SealViolationError ("Unsealed data rejected in transit from "
            ++ fromModule ++ " to " ++ toModule)),
         logs ++ [{ operation := .SEAL_REJECT, timestamp := now, itemId := none,
                    sha512 := none, result := .FAILURE,
                    reason := some ("Unsealed data rejected in transit from "
                      ++ fromModule ++ " to " ++ toModule) }]) := by
  simp [InternalSealMiddleware.validateAndPass, h, SealAuditLog.log, ite_self]

/-- C5 witness: the concrete unsealed packet handed from UploadModule to
ContradictionBrain. -/
theorem C5_internal_gate_reject_witness :
    unsealedPacket.sealed = false
  ∧ InternalSealMiddleware.validateAndPass unsealedPacket "UploadModule"
        "ContradictionBrain" [] "t0"
      = (.error (.SealViolationError ("Unsealed data rejected in transit from "
            ++ "UploadModule" ++ " to " ++ "ContradictionBrain")),
         [] ++ [{ operation := .SEAL_REJECT, timestamp := "t0", itemId := none,
                  sha512 := none, result := .FAILURE,
                  reason := some ("Unsealed data rejected in transit from "
                    ++ "UploadModule" ++ " to " ++ "ContradictionBrain") }]) :=
  ⟨rfl, C5_internal_gate_reject unsealedPacket "UploadModule" "ContradictionBrain"
    [] "t0" rfl⟩

/-- C6: an envelope with sealed = false presented to the Output Gate's
transmission check is rejected by throwing SealViolation, produces
exactly one SEAL_REJECT ledger entry, and the result is the error (so
control never reaches a transmission). -/
theorem C6_output_gate_reject (data : SealedData) (destination : String)
    (logs : List AuditLogEntry) (now : String) (h : data.sealed = false) :
    OutputSealEnforcer.validateBeforeTransmission data destination logs now
      = (.error (.SealViolationError ("Cannot send unsealed data to " ++ destination
            ++ ". All external transmissions must be sealed.")),
         logs ++ [{ operation := .SEAL_REJECT, timestamp := now, itemId := none,
                    sha512 := none, result := .FAILURE,
                    reason := some ("Attempted to send unsealed data to "
                      ++ destination) }]) := by
  simp [OutputSealEnforcer.validateBeforeTransmission, h, SealAuditLog.log, ite_self]

/-- C6 witness: the concrete unsealed packet presented for transmission
to the OpenAI API destination. -/
theorem C6_output_gate_reject_witness :
    unsealedPacket.sealed = false
  ∧ OutputSealEnforcer.validateBeforeTransmission unsealedPacket "OpenAI API" [] "t0"
      = (.error (.SealViolationError ("Cannot send unsealed data to " ++ "OpenAI API"
            ++ ". All external transmissions must be sealed.")),
         [] ++ [{ operation := .SEAL_REJECT, timestamp := "t0", itemId := none,
                  sha512 := none, result := .FAILURE,
                  reason := some ("Attempted to send unsealed data to "
                    ++ "OpenAI API") }]) :=
  ⟨rfl, C6_output_gate_reject unsealedPacket "OpenAI API" [] "t0" rfl⟩

/-- C9: admitting the same valid sealed envelope through the Internal
Gate twice produces two independent SEAL_VERIFY SUCCESS audit entries and
no change to the envelope: validateAndPass returns data equal to its
input on both calls (the embedding is pure, so no field is mutated). -/
theorem C9_gate_idempotent_frame (data : SealedData) (m1 m2 m3 m4 : String)
    (logs : List AuditLogEntry) (t1 t2 : String) (hs : data.sealed = true)
    (hv : InternalSealMiddleware.verifySealIntegrity data = true) :
    InternalSealMiddleware.validateAndPass data m1 m2 logs t1
      = (.ok data,
         logs ++ [{ operation := .SEAL_VERIFY, timestamp := t1, itemId := none,
                    sha512 := some data.sha512, result := .SUCCESS, reason := none }])
  ∧ InternalSealMiddleware.validateAndPass data m3 m4
        (logs ++ [{ operation := .SEAL_VERIFY, timestamp := t1, itemId := none,
                    sha512 := some data.sha512, result := .SUCCESS, reason := none }]) t2
      = (.ok data,
         logs ++ [{ operation := .SEAL_VERIFY, timestamp := t1, itemId := none,
                    sha512 := some data.sha512, result := .SUCCESS, reason := none },
                  { operation := .SEAL_VERIFY, timestamp := t2, itemId := none,
                    sha512 := some data.sha512, result := .SUCCESS, reason := none }]) := by
  refine ⟨validateAndPass_ok hs hv m1 m2 logs t1, ?_⟩
  rw [validateAndPass_ok hs hv m3 m4 _ t2]
  simp

/-- C9 witness: the concrete valid sealed packet admitted twice. -/
theorem C9_gate_idempotent_frame_witness :
    sealedPacket.sealed = true
  ∧ InternalSealMiddleware.verifySealIntegrity sealedPacket = true
  ∧ InternalSealMiddleware.validateAndPass sealedPacket "A" "B" [] "t1"
      = (.ok sealedPacket,
         [] ++ [{ operation := .SEAL_VERIFY, timestamp := "t1", itemId := none,
                  sha512 := some sealedPacket.sha512, result := .SUCCESS, reason := none }])
  ∧ InternalSealMiddleware.validateAndPass sealedPacket "B" "C"
        ([] ++ [{ operation := .SEAL_VERIFY, timestamp := "t1", itemId := none,
                  sha512 := some sealedPacket.sha512, result := .SUCCESS, reason := none }]) "t2"
      = (.ok sealedPacket,
         [] ++ [{ operation := .SEAL_VERIFY, timestamp := "t1", itemId := none,
                  sha512 := some sealedPacket.sha512, result := .SUCCESS, reason := none },
                { operation := .SEAL_VERIFY, timestamp := "t2", itemId := none,
                  sha512 := some sealedPacket.sha512, result := .SUCCESS, reason := none }]) :=
  ⟨rfl, rfl,
   (C9_gate_idempotent_frame sealedPacket "A" "B" "B" "C" [] "t1" "t2" rfl rfl).1,
   (C9_gate_idempotent_frame sealedPacket "A" "B" "B" "C" [] "t1" "t2" rfl rfl).2⟩

/-- C1: for every file whose bytes can be read (and a non-empty captured
timestamp), the SealedData returned by sealFile passes verification
immediately after sealing: validateAndPass applied to it returns the data
itself without throwing. -/
theorem C1_roundtrip (C : WebCrypto) (f : InputSealInterceptor.File) (geo : Option Gps)
    (now now2 fromModule toModule : String) (logs logs2 : List AuditLogEntry)
    (buf : List Nat) (hb : f.bytes = Except.ok buf) (hnow : now ≠ "") :
    ∃ sd, (InputSealInterceptor.sealFile C f geo now logs).1 = .ok sd
      ∧ (InternalSealMiddleware.validateAndPass sd fromModule toModule logs2 now2).1
          = .ok sd := by
  rw [sealFile_ok C f geo now logs buf hb]
  refine ⟨_, rfl, ?_⟩
  rw [validateAndPass_ok rfl
    (verifySealIntegrity_eq_true (generateSHA512_ne_empty C buf) hnow
      (generateChainOfCustody_ne_empty C _ now geo)) fromModule toModule logs2 now2]

/-- C1 witness: the concrete readable file sealed at a concrete time and
passed through the Internal Gate. -/
theorem C1_roundtrip_witness :
    fileSmall.bytes = Except.ok [0, 1, 2]
  ∧ ("2024-01-01T00:00:00.000Z" : String) ≠ ""
  ∧ ∃ sd, (InputSealInterceptor.sealFile testCrypto fileSmall none
        "2024-01-01T00:00:00.000Z" []).1 = .ok sd
      ∧ (InternalSealMiddleware.validateAndPass sd "UploadModule" "ContradictionBrain"
          [] "t1").1 = .ok sd :=
  ⟨rfl, by decide,
   C1_roundtrip testCrypto fileSmall none "2024-01-01T00:00:00.000Z" "t1"
     "UploadModule" "ContradictionBrain" [] [] [0, 1, 2] rfl (by decide)⟩

/-- C2 counterexample: the referenced payload of the concrete sealed
envelope (the bytes of fileSmall, [0, 1, 2]) is mutated after sealing to
[0, 1, 3]; the claim requires verification of the envelope to return
false, but the verifier consults only the envelope's stored fields (its
signature takes no payload at all), so seal-integrity verification still
returns true and the gate still admits the envelope. -/
theorem C2_counterexample :
    ([0, 1, 3] : List Nat) ≠ [0, 1, 2]
  ∧ (InputSealInterceptor.sealFile testCrypto fileSmall none "t0" []).1.map
      InternalSealMiddleware.verifySealIntegrity = Except.ok true
  ∧ (InputSealInterceptor.sealFile testCrypto fileSmall none "t0" []).1.map
      (fun sd => ((InternalSealMiddleware.validateAndPass sd "EvidenceVault"
        "ContradictionBrain" [] "t1").1).toOption.isSome) = Except.ok true :=
  ⟨by decide, rfl, rfl⟩

/-- C2 amended: seal verification does not consult the referenced
payload: verifySealIntegrity reads only the stored sha512, timestamp and
chainOfCustody fields, so for every envelope produced by sealFile it
returns true, and its result is invariant under any change that preserves
those three fields (in particular any mutation of the payload bytes after
sealing goes undetected). -/
theorem C2_verify_ignores_payload (C : WebCrypto) (f : InputSealInterceptor.File)
    (geo : Option Gps) (now : String) (logs : List AuditLogEntry) (buf : List Nat)
    (hb : f.bytes = Except.ok buf) (hnow : now ≠ "") :
    ((InputSealInterceptor.sealFile C f geo now logs).1.map
        InternalSealMiddleware.verifySealIntegrity = Except.ok true)
  ∧ ∀ sd sd2 : SealedData, sd.sha512 = sd2.sha512 → sd.timestamp = sd2.timestamp →
      sd.chainOfCustody = sd2.chainOfCustody →
      InternalSealMiddleware.verifySealIntegrity sd
        = InternalSealMiddleware.verifySealIntegrity sd2 := by
  constructor
  · rw [sealFile_ok C f geo now logs buf hb]
    show Except.ok _ = Except.ok true
    rw [verifySealIntegrity_eq_true (generateSHA512_ne_empty C buf) hnow
      (generateChainOfCustody_ne_empty C _ now geo)]
  · intro sd sd2 h1 h2 h3
    simp [InternalSealMiddleware.verifySealIntegrity, h1, h2, h3]

/-- C2 amended witness: the concrete file sealed at a concrete time, and
the concrete sealed packet compared with a copy that differs only in its
payload reference. -/
theorem C2_verify_ignores_payload_witness :
    ((InputSealInterceptor.sealFile testCrypto fileSmall none "t0" []).1.map
        InternalSealMiddleware.verifySealIntegrity = Except.ok true)
  ∧ InternalSealMiddleware.verifySealIntegrity sealedPacket
      = InternalSealMiddleware.verifySealIntegrity
          { sealedPacket with content := some rawPayload } :=
  ⟨(C2_verify_ignores_payload testCrypto fileSmall none "t0" [] [0, 1, 2] rfl
      (by decide)).1,
   (C2_verify_ignores_payload testCrypto fileSmall none "t0" [] [0, 1, 2] rfl
      (by decide)).2 sealedPacket { sealedPacket with content := some rawPayload }
      rfl rfl rfl⟩

/-- C8: for every file whose bytes can be read (and a non-empty captured
timestamp), sealFile succeeds and returns a SealedData with sealed = true
and all custody fields present (non-empty digest, the captured timestamp,
non-empty chain of custody), the gps field mirroring the optional
geolocation (left none when absent), and appends exactly one SEAL_CREATE
SUCCESS audit entry; when the bytes cannot be read it appends exactly one
SEAL_CREATE FAILURE entry and throws SealViolationError. -/
theorem C8_sealFile_postcondition (C : WebCrypto) (f : InputSealInterceptor.File)
    (geo : Option Gps) (now : String) (logs : List AuditLogEntry) (hnow : now ≠ "") :
    (∀ buf, f.bytes = Except.ok buf →
      ∃ sd, InputSealInterceptor.sealFile C f geo now logs
          = (Except.ok sd,
             logs ++ [{ operation := .SEAL_CREATE, timestamp := now,
                        itemId := some f.name, sha512 := some sd.sha512,
                        result := .SUCCESS, reason := none }])
        ∧ sd.sealed = true ∧ sd.sha512 ≠ "" ∧ sd.timestamp = now
        ∧ sd.timestamp ≠ "" ∧ sd.chainOfCustody ≠ "" ∧ sd.gps = geo)
  ∧ (∀ msg, f.bytes = Except.error msg →
      InputSealInterceptor.sealFile C f geo now logs
        = (Except.error (.SealViolationError ("Failed to seal file: " ++ msg)),
           logs ++ [{ operation := .SEAL_CREATE, timestamp := now,
                      itemId := some f.name, sha512 := none, result := .FAILURE,
                      reason := some msg }])) := by
  constructor
  · intro buf hb
    rw [sealFile_ok C f geo now logs buf hb]
    exact ⟨_, rfl, rfl, generateSHA512_ne_empty C buf, rfl, hnow,
      generateChainOfCustody_ne_empty C _ now geo, rfl⟩
  · intro msg hb
    simp [InputSealInterceptor.sealFile, hb, SealAuditLog.log, ite_self]

/-- C8 witness: the concrete readable file (success branch, no
geolocation) and the concrete unreadable file (failure branch). -/
theorem C8_sealFile_postcondition_witness :
    (∃ sd, InputSealInterceptor.sealFile testCrypto fileSmall none "t0" []
        = (Except.ok sd,
           [] ++ [{ operation := .SEAL_CREATE, timestamp := "t0",
                    itemId := some fileSmall.name, sha512 := some sd.sha512,
                    result := .SUCCESS, reason := none }])
      ∧ sd.sealed = true ∧ sd.sha512 ≠ "" ∧ sd.timestamp = "t0"
      ∧ sd.timestamp ≠ "" ∧ sd.chainOfCustody ≠ "" ∧ sd.gps = none)
  ∧ InputSealInterceptor.sealFile testCrypto fileUnreadable none "t0" []
      = (Except.error (.SealViolationError ("Failed to seal file: "
            ++ "stream unreadable")),
         [] ++ [{ operation := .SEAL_CREATE, timestamp := "t0",
                  itemId := some fileUnreadable.name, sha512 := none,
                  result := .FAILURE, reason := some "stream unreadable" }]) :=
  ⟨(C8_sealFile_postcondition testCrypto fileSmall none "t0" [] (by decide)).1
      [0, 1, 2] rfl,
   (C8_sealFile_postcondition testCrypto fileUnreadable none "t0" [] (by decide)).2
      "stream unreadable" rfl⟩

/-- C7 counterexample: raw evidence bytes, sealed for output, cross the
Output Gate: sealForOutput embeds the raw payload verbatim in the sealed
envelope's content, and validateBeforeTransmission admits it (no check of
the payload kind, and no check of prior Internal Gate admission). -/
theorem C7_counterexample :
    (OutputSealEnforcer.sealForOutput testCrypto rawPayload "OpenAI API" "t0" []).1.map
      (fun sd => sd.content) = Except.ok (some rawPayload)
  ∧ (OutputSealEnforcer.sealForOutput testCrypto rawPayload "OpenAI API" "t0" []).1.map
      (fun sd => ((OutputSealEnforcer.validateBeforeTransmission sd "OpenAI API"
        [] "t1").1).toOption.isSome) = Except.ok true :=
  ⟨rfl, rfl⟩

/-- C7 amended: the Output Gate checks only the sealed flag: the
transmission check succeeds exactly when sealed = true, independently of
the payload kind (raw evidence included), and sealForOutput wraps any
given payload verbatim with sealed = true; no record of Internal Gate
admission is consulted. -/
theorem C7_output_gate_checks_flag_only (C : WebCrypto) (data : SealedData)
    (payload : OutPayload) (dest dest2 now now2 : String)
    (logs logs2 : List AuditLogEntry) :
    ((OutputSealEnforcer.validateBeforeTransmission data dest logs now).1.toOption.isSome
      = data.sealed)
  ∧ ((OutputSealEnforcer.sealForOutput C payload dest2 now2 logs2).1.map
      (fun sd => (sd.sealed, sd.content)) = Except.ok (true, some payload)) := by
  constructor
  · cases h : data.sealed <;>
      simp [OutputSealEnforcer.validateBeforeTransmission, h, Except.toOption]
  · rfl

/-- C10 counterexample: a packet that is an object, has sealed === true
and carries all three seal fields (so the claim requires valid = true),
yet validateSeal returns valid = false because the present sha512 field
is the empty string and the code tests field truthiness, not presence. -/
theorem C10_counterexample :
    packetEmptySha.hasProp "sha512" = true
  ∧ packetEmptySha.hasProp "timestamp" = true
  ∧ packetEmptySha.hasProp "chainOfCustody" = true
  ∧ (packetEmptySha.getProp "sealed").strictlyTrue = true
  ∧ packetEmptySha.typeofObject = true
  ∧ packetEmptySha.falsy = false
  ∧ (InputSealInterceptor.validateSeal packetEmptySha).valid = false :=
  ⟨rfl, rfl, rfl, rfl, rfl, rfl, rfl⟩

/-- C10 amended: validateSeal is total (the embedding is a total
function) and classifies every dynamic value: it returns valid = false
together with a non-empty reason exactly when the input is falsy or not
of object type, or its sealed property is not the boolean true, or any of
the sha512, timestamp, chainOfCustody properties is missing or falsy
(empty string, zero, false, null); it returns valid = true with no reason
otherwise. -/
theorem C10_validateSeal_classification (v : JSValue) :
    ((InputSealInterceptor.validateSeal v).valid = true ↔
      (v.falsy = false ∧ v.typeofObject = true
        ∧ (v.getProp "sealed").strictlyTrue = true
        ∧ (v.getProp "sha512").falsy = false
        ∧ (v.getProp "timestamp").falsy = false
        ∧ (v.getProp "chainOfCustody").falsy = false))
  ∧ ((InputSealInterceptor.validateSeal v).valid = true →
      (InputSealInterceptor.validateSeal v).reason = none)
  ∧ ((InputSealInterceptor.validateSeal v).valid = false →
      ∃ r, (InputSealInterceptor.validateSeal v).reason = some r ∧ r ≠ "") := by
  refine ⟨?_, ?_, ?_⟩
  · unfold InputSealInterceptor.validateSeal
    split_ifs with h1 h2 h3
    · constructor
      · intro hc
        exact absurd hc (by decide)
      · rintro ⟨hf, hob, -⟩
        rw [hf, hob] at h1
        exact absurd h1 (by decide)
    · constructor
      · intro hc
        exact absurd hc (by decide)
      · rintro ⟨-, -, hst, -⟩
        rw [hst] at h2
        exact absurd h2 (by decide)
    · constructor
      · intro hc
        exact absurd hc (by decide)
      · rintro ⟨-, -, -, h4, h5, h6⟩
        rw [h4, h5, h6] at h3
        exact absurd h3 (by decide)
    · simp only [Bool.or_eq_true, Bool.not_eq_true, not_or] at h1 h2 h3
      refine ⟨fun _ => ⟨h1.1, ?_, ?_, h3.1.1, h3.1.2, h3.2⟩, fun _ => rfl⟩
      · have := h1.2
        revert this
        cases v.typeofObject <;> simp
      · revert h2
        cases (v.getProp "sealed").strictlyTrue <;> simp
  · unfold InputSealInterceptor.validateSeal
    split_ifs <;> simp
  · unfold InputSealInterceptor.validateSeal
    split_ifs <;> intro hc <;>
      first
        | exact absurd hc (by decide)
        | exact ⟨_, rfl, by decide⟩

/-- C10 witness: the classification applied to the null value and to a
fully sealed well-formed object. -/
theorem C10_validateSeal_classification_witness :
    ((InputSealInterceptor.validateSeal JSValue.nullV).valid = false →
      ∃ r, (InputSealInterceptor.validateSeal JSValue.nullV).reason = some r ∧ r ≠ "")
  ∧ ((InputSealInterceptor.validateSeal JSValue.nullV).valid = false) :=
  ⟨(C10_validateSeal_classification JSValue.nullV).2.2, rfl⟩

end VerumOmnis
